import Mathlib

/-!
Verification of the result-aggregation and compliance-scoring logic of the
Terraform unit-testing framework.  The definitions below are a shallow
embedding of `policy_compliance/compliance_checker.py` and
`static_analysis/static_checker.py`: Python dictionaries become structures,
`dict.get` with a default becomes a total field (absent keys modelled by
`Option` where the code distinguishes absence), the float compliance score
becomes an exact rational, and the branchy control flow is mirrored
branch for branch.
-/

namespace IaC

/-- A resource extracted by `_parse_terraform_files`: the regex always fills
`type`, `name`, `file` and `address` (address is `type.name`). -/
structure Resource where
  rtype : String
  rname : String
  rfile : String
  raddress : String
deriving Repr, DecidableEq

/-- A policy rule as read from the config file: `rule.get("property")` may be
absent (`none`) or an arbitrary string, and `rule.get("required")` is used
only for truthiness, modelled as a `Bool`. -/
structure Rule where
  property : Option String
  required : Bool
deriving Repr, DecidableEq

/-- A loaded policy configuration.  `policy.get("description", "")`,
`policy.get("resource_types", [])` and `policy.get("rules", [])` default to
empty, so the fields are total with the empty value standing for an absent
key. -/
structure Policy where
  description : String
  resource_types : List String
  rules : List Rule
deriving Repr, DecidableEq

/-- A violation record as built by `_check_rule_violation`. -/
structure Violation where
  resource : String
  resource_type : String
  rule : String
  policy : String
  severity : String
deriving Repr, DecidableEq

/-- Embedding of `_check_rule_violation` (compliance_checker.py lines
223-253): a missing or empty `property` (Python falsiness) yields no
violation; otherwise a rule with truthy `required` always yields one
MEDIUM violation, never inspecting the resource body. -/
def checkRuleViolation (resource : Resource) (rule : Rule) (policyName : String) :
    Option Violation :=
  match rule.property with
  | none => none
  | some p =>
    if p = "" then none
    else if rule.required then
      some { resource := resource.raddress
             resource_type := resource.rtype
             rule := "Property " ++ p ++ " is required but not validated in simple parsing"
             policy := policyName
             severity := "MEDIUM" }
    else none

/-- Result of `_check_policy_compliance` for one policy. -/
structure PolicyResult where
  policy_name : String
  description : String
  status : String
  applicable_resources : Nat
  violations : List Violation
  violation_count : Nat
deriving Repr, DecidableEq

/-- Embedding of `_check_policy_compliance` (lines 184-221): filter the
resources by the policy resource types, run every rule on every relevant
resource (resource-major order, as the nested Python loops do), and mark the
policy FAILED exactly when the violation list is non-empty. -/
def checkPolicyCompliance (policyName : String) (cfg : Policy)
    (resources : List Resource) : PolicyResult :=
  let relevant := resources.filter (fun r => cfg.resource_types.contains r.rtype)
  let violations :=
    (relevant.map (fun r => cfg.rules.filterMap (fun rule => checkRuleViolation r rule policyName))).flatten
  { policy_name := policyName
    description := cfg.description
    status := if violations.isEmpty then "PASSED" else "FAILED"
    applicable_resources := relevant.length
    violations := violations
    violation_count := violations.length }

/-- Embedding of the inline score expression of `check_compliance` line 108:
`(passed_policies / len(self.policies)) * 100 if self.policies else 0`.
The dictionary truthiness test `if self.policies` is `total ≠ 0`; the Python
float division is modelled exactly in the rationals. -/
def complianceScore (passed total : Nat) : ℚ :=
  if total = 0 then 0 else ((passed : ℚ) / (total : ℚ)) * 100

/-- The success payload of `check_compliance` (lines 100-111). -/
structure ComplianceReport where
  terraform_directory : String
  total_policies : Nat
  passed_policies : Nat
  failed_policies : Nat
  results : List PolicyResult
  compliance_score : ℚ
  overall_status : String
deriving Repr, DecidableEq

/-- Outcome of `check_compliance`: the two early returns produce
`{"status": "error", "error_message": ..., "results": []}` dictionaries,
the main path a full report with `"status": "success"`. -/
inductive ComplianceResult where
  | error (error_message : String)
  | success (report : ComplianceReport)
deriving Repr, DecidableEq

/-- The `status` field of the returned dictionary. -/
def ComplianceResult.status : ComplianceResult → String
  | .error _ => "error"
  | .success _ => "success"

/-- The `error_message` field of the returned dictionary (absent on the
success path). -/
def ComplianceResult.error_message : ComplianceResult → Option String
  | .error m => some m
  | .success _ => none

/-- The `results` field of the returned dictionary (the early error returns
carry an empty list). -/
def ComplianceResult.resultsList : ComplianceResult → List PolicyResult
  | .error _ => []
  | .success r => r.results

/-- Embedding of `check_compliance` (lines 60-111).  The loaded policy
dictionary is the association list `policies` (Python dictionaries preserve
insertion order), and the outcome of `_parse_terraform_files` is the
`resources` parameter.  `if not self.policies` is the first check, before
resource extraction, and `if not terraform_resources` the second. -/
def checkCompliance (policies : List (String × Policy)) (resources : List Resource)
    (terraformDir : String) : ComplianceResult :=
  if policies.isEmpty then
    .error "No policies loaded"
  else if resources.isEmpty then
    .error "No Terraform resources found"
  else
    let complianceResults := policies.map (fun p => checkPolicyCompliance p.1 p.2 resources)
    let passed := (complianceResults.filter (fun r => r.status = "PASSED")).length
    let failed := (complianceResults.filter (fun r => r.status = "FAILED")).length
    .success
      { terraform_directory := terraformDir
        total_policies := policies.length
        passed_policies := passed
        failed_policies := failed
        results := complianceResults
        compliance_score := complianceScore passed policies.length
        overall_status := if failed = 0 then "PASSED" else "FAILED" }

end IaC

namespace IaC

/-! ### Static checker: Checkov severity histogram and overall status -/

/-- The per-bucket severity counters of `run_checkov` line 141:
`{"critical": 0, "high": 0, "medium": 0, "low": 0}`. -/
structure SeverityCounts where
  critical : Nat
  high : Nat
  medium : Nat
  low : Nat
deriving Repr, DecidableEq

/-- The all-zero initial histogram. -/
def SeverityCounts.zero : SeverityCounts := ⟨0, 0, 0, 0⟩

/-- A failed Checkov check, restricted to the only field the histogram loop
reads: `check.get("severity")`, which may be absent. -/
structure CheckovCheck where
  severity : Option String
deriving Repr, DecidableEq

/-- Embedding of the `severity.lower()` call of `run_checkov` line 145:
character-wise ASCII lowercasing of the severity string (the executable
counterpart of `String.toLower`). -/
def lowerAscii (s : String) : String := ⟨s.data.map Char.toLower⟩

/-- Embedding of one iteration of the severity loop of `run_checkov` (lines
142-151): a falsy severity (absent or the empty string) counts as medium;
otherwise the lowercased severity selects its bucket when it is one of the
four keys and falls back to medium when unknown. -/
def countSeverity (counts : SeverityCounts) (check : CheckovCheck) : SeverityCounts :=
  match check.severity with
  | none => { counts with medium := counts.medium + 1 }
  | some s =>
    if s = "" then { counts with medium := counts.medium + 1 }
    else
      let l := lowerAscii s
      if l = "critical" then { counts with critical := counts.critical + 1 }
      else if l = "high" then { counts with high := counts.high + 1 }
      else if l = "medium" then { counts with medium := counts.medium + 1 }
      else if l = "low" then { counts with low := counts.low + 1 }
      else { counts with medium := counts.medium + 1 }

/-- The whole histogram loop over the failed checks. -/
def severityCounts (failedChecks : List CheckovCheck) : SeverityCounts :=
  failedChecks.foldl countSeverity SeverityCounts.zero

/-- The fields of the terraform-validate result dictionary read by
`_determine_overall_status`: `status`, `valid` (default `False`),
`error_count` and `warning_count` (default 0). -/
structure ValidateResult where
  status : String
  valid : Bool
  error_count : Nat
  warning_count : Nat
deriving Repr, DecidableEq

/-- The fields of the tflint result dictionary read by
`_determine_overall_status`: `status` and `total_issues` (default 0). -/
structure TflintResult where
  status : String
  total_issues : Nat
deriving Repr, DecidableEq

/-- The fields of the checkov result dictionary read by
`_determine_overall_status`: `status` and the severity `summary`
(`.get("summary", {}).get(k, 0)` defaults each bucket to 0, so an absent
summary is the zero histogram). -/
structure CheckovResult where
  status : String
  summary : SeverityCounts
deriving Repr, DecidableEq

/-- Embedding of `_determine_overall_status` (static_checker.py lines
296-348), branch for branch: tool-failure check first (the validate status
is recognized only as `"success"`; tflint and checkov also accept
`"not_found"`), then validity, then critical issues, then medium issues. -/
def determineOverallStatus (v : ValidateResult) (t : TflintResult)
    (c : CheckovResult) : String :=
  if v.status ≠ "success" ∨ (t.status ≠ "success" ∧ t.status ≠ "not_found") ∨
      (c.status ≠ "success" ∧ c.status ≠ "not_found") then
    "TOOL_ERROR"
  else if !v.valid then
    "VALIDATION_FAILED"
  else if 0 < v.error_count + c.summary.critical + c.summary.high then
    "CRITICAL_ISSUES"
  else if 0 < v.warning_count + c.summary.medium + c.summary.low + t.total_issues then
    "NEEDS_ATTENTION"
  else
    "PASSED"

/-- Outcome of `analyze_terraform_files` as far as its guard logic goes:
the two early error returns (missing directory, no `.tf` files) versus the
combined success dictionary, whose `overall_status` summary field is
`_determine_overall_status` of the three tool results. -/
inductive AnalysisResult where
  | error (error_message : String)
  | success (overall_status : String)
deriving Repr, DecidableEq

/-- The `status` field of the dictionary returned by
`analyze_terraform_files`. -/
def AnalysisResult.status : AnalysisResult → String
  | .error _ => "error"
  | .success _ => "success"

/-- Embedding of the control flow of `analyze_terraform_files` (lines
350-425).  Directory existence and the recursive `.tf` listing are the
`dirExists` and `tfFiles` parameters; the three tool invocations are the
result parameters.  Only the `overall_status` summary field is retained on
the success path, the part the claims are about. -/
def analyzeTerraformFiles (terraformDir : String) (dirExists : Bool)
    (tfFiles : List String) (v : ValidateResult) (t : TflintResult)
    (c : CheckovResult) : AnalysisResult :=
  if !dirExists then
    .error ("Directory " ++ terraformDir ++ " does not exist")
  else if tfFiles.isEmpty then
    .error ("No Terraform files found in " ++ terraformDir)
  else
    .success (determineOverallStatus v t c)

end IaC

namespace IaC

/-! ### Theorems -/

/-- Sum of the four histogram buckets. -/
def SeverityCounts.total (k : SeverityCounts) : Nat :=
  k.critical + k.high + k.medium + k.low

lemma countSeverity_total (k : SeverityCounts) (ch : CheckovCheck) :
    (countSeverity k ch).total = k.total + 1 := by
  rcases ch with ⟨_ | s⟩
  · simp only [countSeverity, SeverityCounts.total]
    omega
  · simp only [countSeverity, SeverityCounts.total]
    split_ifs <;> dsimp only <;> omega

lemma foldl_countSeverity_total (checks : List CheckovCheck) (k : SeverityCounts) :
    (checks.foldl countSeverity k).total = k.total + checks.length := by
  induction checks generalizing k with
  | nil => simp
  | cons c cs ih =>
    simp only [List.foldl_cons, List.length_cons, ih, countSeverity_total]
    omega

/-- C9: the Checkov severity histogram classifies each failed check
case-insensitively into the four buckets, sends a missing or unknown
severity to the medium bucket, and the four bucket counts always sum to the
number of failed checks. -/
theorem C9_severity_histogram :
    (∀ checks : List CheckovCheck,
       (severityCounts checks).critical + (severityCounts checks).high +
         (severityCounts checks).medium + (severityCounts checks).low = checks.length) ∧
    (∀ (k : SeverityCounts) (s : String), lowerAscii s = "critical" →
       countSeverity k ⟨some s⟩ = { k with critical := k.critical + 1 }) ∧
    (∀ (k : SeverityCounts) (s : String), lowerAscii s = "high" →
       countSeverity k ⟨some s⟩ = { k with high := k.high + 1 }) ∧
    (∀ (k : SeverityCounts) (s : String), lowerAscii s = "medium" →
       countSeverity k ⟨some s⟩ = { k with medium := k.medium + 1 }) ∧
    (∀ (k : SeverityCounts) (s : String), lowerAscii s = "low" →
       countSeverity k ⟨some s⟩ = { k with low := k.low + 1 }) ∧
    (∀ (k : SeverityCounts) (s : String),
       lowerAscii s ∉ ["critical", "high", "medium", "low"] →
       countSeverity k ⟨some s⟩ = { k with medium := k.medium + 1 }) ∧
    (∀ k : SeverityCounts, countSeverity k ⟨none⟩ = { k with medium := k.medium + 1 }) := by
  refine ⟨?_, ?_, ?_, ?_, ?_, ?_, ?_⟩
  · intro checks
    have h := foldl_countSeverity_total checks SeverityCounts.zero
    simpa [severityCounts, SeverityCounts.total, SeverityCounts.zero] using h
  · intro k s hs
    have hne : s ≠ "" := by
      intro h
      rw [h] at hs
      exact absurd hs (by decide)
    simp [countSeverity, hne, hs]
  · intro k s hs
    have hne : s ≠ "" := by
      intro h
      rw [h] at hs
      exact absurd hs (by decide)
    simp [countSeverity, hne, hs]
  · intro k s hs
    have hne : s ≠ "" := by
      intro h
      rw [h] at hs
      exact absurd hs (by decide)
    simp [countSeverity, hne, hs]
  · intro k s hs
    have hne : s ≠ "" := by
      intro h
      rw [h] at hs
      exact absurd hs (by decide)
    simp [countSeverity, hne, hs]
  · intro k s hs
    simp only [List.mem_cons, List.not_mem_nil, or_false] at hs
    push_neg at hs
    obtain ⟨h1, h2, h3, h4⟩ := hs
    by_cases he : s = ""
    · simp [countSeverity, he]
    · simp [countSeverity, he, h1, h2, h3, h4]
  · intro k
    simp [countSeverity]

/-- C9 witness: concrete histogram facts obtained from the theorem. -/
theorem C9_severity_histogram_witness :
    countSeverity ⟨0, 0, 0, 0⟩ ⟨some "CRITICAL"⟩ =
      { SeverityCounts.mk 0 0 0 0 with critical := 0 + 1 } ∧
    countSeverity ⟨0, 0, 0, 0⟩ ⟨some "Weird"⟩ =
      { SeverityCounts.mk 0 0 0 0 with medium := 0 + 1 } :=
  ⟨C9_severity_histogram.2.1 ⟨0, 0, 0, 0⟩ "CRITICAL" (by decide),
   C9_severity_histogram.2.2.2.2.2.1 ⟨0, 0, 0, 0⟩ "Weird" (by decide)⟩

/-- C2: whenever the validator ran successfully, reports valid input with
zero errors, the linter ran (or is absent) and the scanner ran and counted
at least one critical or high severity finding, the combined status is
CRITICAL_ISSUES — the medium and low buckets, the validator warning count
and the linter issue count are left unconstrained, so the critical tier
takes precedence over any NEEDS_ATTENTION-tier findings that are also
present. -/
theorem C2_critical_precedence (v : ValidateResult) (t : TflintResult)
    (c : CheckovResult)
    (hv : v.status = "success") (hvalid : v.valid = true)
    (herr : v.error_count = 0)
    (ht : t.status = "success" ∨ t.status = "not_found")
    (hc : c.status = "success")
    (hcrit : 0 < c.summary.critical + c.summary.high) :
    determineOverallStatus v t c = "CRITICAL_ISSUES" := by
  unfold determineOverallStatus
  rcases ht with ht | ht <;> simp [hv, ht, hc, hvalid, herr, hcrit]

/-- C2 witness: one critical finding plus medium, low and linter findings
still yields CRITICAL_ISSUES. -/
theorem C2_critical_precedence_witness :
    determineOverallStatus ⟨"success", true, 0, 2⟩ ⟨"success", 3⟩
      ⟨"success", ⟨1, 0, 2, 1⟩⟩ = "CRITICAL_ISSUES" :=
  C2_critical_precedence ⟨"success", true, 0, 2⟩ ⟨"success", 3⟩
    ⟨"success", ⟨1, 0, 2, 1⟩⟩ rfl rfl rfl (Or.inl rfl) rfl (by decide)

/-- C3 counterexample: all three tool statuses are in the success/not-found
set (the validator reports not_found, exactly as its FileNotFoundError
branch produces), yet the combined status is TOOL_ERROR — contradicting the
claim that every tool being in a success or not_found state, including the
validator reporting not_found, rules TOOL_ERROR out. -/
theorem C3_counterexample :
    ("not_found" = "success" ∨ "not_found" = "not_found") ∧
    ("success" = "success" ∨ "success" = "not_found") ∧
    determineOverallStatus ⟨"not_found", false, 1, 0⟩ ⟨"success", 0⟩
      ⟨"success", ⟨0, 0, 0, 0⟩⟩ = "TOOL_ERROR" := by
  refine ⟨Or.inr rfl, Or.inl rfl, ?_⟩
  decide

/-- C3 (amended): the combined status is TOOL_ERROR exactly when the
validator status differs from success, or the linter or scanner status is
neither success nor not_found; the check is evaluated before every other
precedence step, and in particular a validator status of not_found yields
TOOL_ERROR because the validator has no recognized not-found state. -/
theorem C3_tool_error_iff (v : ValidateResult) (t : TflintResult)
    (c : CheckovResult) :
    determineOverallStatus v t c = "TOOL_ERROR" ↔
      (v.status ≠ "success" ∨ (t.status ≠ "success" ∧ t.status ≠ "not_found") ∨
       (c.status ≠ "success" ∧ c.status ≠ "not_found")) := by
  unfold determineOverallStatus
  split_ifs with h1 h2 h3 h4 <;> simp_all

/-- C8: with an empty loaded policy set, check_compliance returns the error
dictionary with message "No policies loaded" and an empty results list, and
it does so for every extraction outcome — the result does not depend on the
resources, reflecting that the guard runs before resource extraction. -/
theorem C8_no_policies_error (resources : List Resource) (dir : String) :
    checkCompliance [] resources dir = .error "No policies loaded" ∧
    (checkCompliance [] resources dir).status = "error" ∧
    (checkCompliance [] resources dir).error_message = some "No policies loaded" ∧
    (checkCompliance [] resources dir).resultsList = [] := by
  refine ⟨rfl, rfl, rfl, rfl⟩

end IaC

namespace IaC

/-! ### Compliance checker lemmas -/

/-- A rule on which `_check_rule_violation` fires for every resource: it is
marked required and carries a non-empty property name. -/
def Rule.alwaysFlags (rule : Rule) : Bool :=
  match rule.property with
  | none => false
  | some p => !(p == "") && rule.required

lemma checkRuleViolation_eq_none (r : Resource) (rule : Rule) (n : String)
    (h : rule.property = none ∨ rule.property = some "") :
    checkRuleViolation r rule n = none := by
  rcases h with h | h <;> simp [checkRuleViolation, h]

lemma checkRuleViolation_isSome (r : Resource) (rule : Rule) (n : String) :
    (checkRuleViolation r rule n).isSome = rule.alwaysFlags := by
  rcases rule with ⟨_ | p, req⟩
  · rfl
  · simp only [checkRuleViolation, Rule.alwaysFlags]
    split_ifs with h1 h2 <;> simp_all

lemma checkRuleViolation_severity (r : Resource) (rule : Rule) (n : String)
    (v : Violation) (h : checkRuleViolation r rule n = some v) :
    v.severity = "MEDIUM" := by
  unfold checkRuleViolation at h
  rcases rule with ⟨_ | p, req⟩
  · simp at h
  · dsimp only at h
    split_ifs at h
    · injection h with h
      subst h
      rfl

lemma length_filterMap_checkRule (r : Resource) (n : String) (rules : List Rule) :
    (rules.filterMap (fun rule => checkRuleViolation r rule n)).length =
      rules.countP (fun rule => rule.alwaysFlags) := by
  induction rules with
  | nil => rfl
  | cons rule rs ih =>
    have h := checkRuleViolation_isSome r rule n
    simp only [List.filterMap_cons, List.countP_cons]
    cases hc : checkRuleViolation r rule n with
    | none =>
      rw [hc] at h
      simp only [Option.isSome_none] at h
      simp [ih, ← h]
    | some v =>
      rw [hc] at h
      simp only [Option.isSome_some] at h
      simp [ih, ← h]

lemma length_flatten_map_const {α β : Type} (l : List α) (f : α → List β) (k : ℕ)
    (h : ∀ a ∈ l, (f a).length = k) :
    ((l.map f).flatten).length = l.length * k := by
  induction l with
  | nil => simp
  | cons a as ih =>
    simp only [List.map_cons, List.flatten_cons, List.length_append, List.length_cons]
    rw [h a (by simp), ih (fun x hx => h x (by simp [hx]))]
    ring

lemma checkPolicyCompliance_applicable (pn : String) (cfg : Policy)
    (res : List Resource) :
    (checkPolicyCompliance pn cfg res).applicable_resources =
      (res.filter (fun r => cfg.resource_types.contains r.rtype)).length := rfl

lemma checkPolicyCompliance_count (pn : String) (cfg : Policy)
    (res : List Resource) :
    (checkPolicyCompliance pn cfg res).violation_count =
      (res.filter (fun r => cfg.resource_types.contains r.rtype)).length *
        cfg.rules.countP (fun rule => rule.alwaysFlags) := by
  unfold checkPolicyCompliance
  dsimp only
  exact length_flatten_map_const _ _ _ (fun r _ => length_filterMap_checkRule r pn cfg.rules)

lemma checkPolicyCompliance_count_eq_length (pn : String) (cfg : Policy)
    (res : List Resource) :
    (checkPolicyCompliance pn cfg res).violation_count =
      (checkPolicyCompliance pn cfg res).violations.length := rfl

lemma ite_status_passed_iff (V : List Violation) :
    ((if V.isEmpty then "PASSED" else "FAILED") = "PASSED") ↔ V = [] := by
  cases V with
  | nil => simp
  | cons a l => simp

lemma checkPolicyCompliance_status_passed_iff (pn : String) (cfg : Policy)
    (res : List Resource) :
    (checkPolicyCompliance pn cfg res).status = "PASSED" ↔
      (checkPolicyCompliance pn cfg res).violations = [] := by
  unfold checkPolicyCompliance
  dsimp only
  exact ite_status_passed_iff _

lemma checkPolicyCompliance_status_dichotomy (pn : String) (cfg : Policy)
    (res : List Resource) :
    (checkPolicyCompliance pn cfg res).status = "PASSED" ∨
      (checkPolicyCompliance pn cfg res).status = "FAILED" := by
  unfold checkPolicyCompliance
  dsimp only
  exact ite_eq_or_eq _ _ _

lemma checkPolicyCompliance_severity_medium (pn : String) (cfg : Policy)
    (res : List Resource) :
    ∀ v ∈ (checkPolicyCompliance pn cfg res).violations, v.severity = "MEDIUM" := by
  intro v hv
  unfold checkPolicyCompliance at hv
  dsimp only at hv
  rw [List.mem_flatten] at hv
  obtain ⟨l, hl, hvl⟩ := hv
  rw [List.mem_map] at hl
  obtain ⟨r, _, rfl⟩ := hl
  rw [List.mem_filterMap] at hvl
  obtain ⟨rule, _, hrule⟩ := hvl
  exact checkRuleViolation_severity r rule pn v hrule

lemma length_filter_passed_add_failed (l : List PolicyResult)
    (h : ∀ x ∈ l, x.status = "PASSED" ∨ x.status = "FAILED") :
    (l.filter fun r => r.status = "PASSED").length +
      (l.filter fun r => r.status = "FAILED").length = l.length := by
  induction l with
  | nil => simp
  | cons a as ih =>
    have hrest : ∀ x ∈ as, x.status = "PASSED" ∨ x.status = "FAILED" :=
      fun x hx => h x (by simp [hx])
    have hih := ih hrest
    rcases h a (by simp) with ha | ha <;>
      simp only [List.filter_cons, ha] <;>
      split_ifs <;> simp_all <;> omega

end IaC

namespace IaC

/-- C10: a rule whose property field is missing or empty never produces a
violation, even when the rule is marked required; consequently a policy all
of whose rules lack a non-empty property yields status PASSED and a zero
violation count for any resource set. -/
theorem C10_missing_property_rule_never_fires :
    (∀ (resource : Resource) (rule : Rule) (n : String),
       rule.property = none ∨ rule.property = some "" →
       checkRuleViolation resource rule n = none) ∧
    (∀ (pn : String) (cfg : Policy) (res : List Resource),
       (∀ rule ∈ cfg.rules, rule.property = none ∨ rule.property = some "") →
       (checkPolicyCompliance pn cfg res).status = "PASSED" ∧
       (checkPolicyCompliance pn cfg res).violation_count = 0) := by
  constructor
  · exact checkRuleViolation_eq_none
  · intro pn cfg res h
    have hv : (checkPolicyCompliance pn cfg res).violations = [] := by
      unfold checkPolicyCompliance
      dsimp only
      rw [List.flatten_eq_nil_iff]
      intro l hl
      rw [List.mem_map] at hl
      obtain ⟨r, _, rfl⟩ := hl
      rw [List.filterMap_eq_nil_iff]
      intro rule hrule
      exact checkRuleViolation_eq_none r rule pn (h rule hrule)
    refine ⟨(checkPolicyCompliance_status_passed_iff pn cfg res).mpr hv, ?_⟩
    rw [checkPolicyCompliance_count_eq_length, hv]
    rfl

/-- C10 witness: a required rule with an absent property and a required rule
with an empty property produce no violation on an applicable resource. -/
theorem C10_missing_property_rule_never_fires_witness :
    checkRuleViolation ⟨"storage_bucket", "b1", "main.tf", "storage_bucket.b1"⟩
      ⟨none, true⟩ "p" = none ∧
    (checkPolicyCompliance "p"
        ⟨"", ["storage_bucket"], [⟨none, true⟩, ⟨some "", true⟩]⟩
        [⟨"storage_bucket", "b1", "main.tf", "storage_bucket.b1"⟩]).status = "PASSED" ∧
    (checkPolicyCompliance "p"
        ⟨"", ["storage_bucket"], [⟨none, true⟩, ⟨some "", true⟩]⟩
        [⟨"storage_bucket", "b1", "main.tf", "storage_bucket.b1"⟩]).violation_count = 0 :=
  ⟨C10_missing_property_rule_never_fires.1 _ _ _ (Or.inl rfl),
   (C10_missing_property_rule_never_fires.2 "p" _ _ (by decide)).1,
   (C10_missing_property_rule_never_fires.2 "p" _ _ (by decide)).2⟩

/-- C6: a policy whose resource_types are disjoint from the types of all
extracted resources passes vacuously — applicable_resources 0, no
violations, status PASSED — whatever rules (required or not) it contains. -/
theorem C6_disjoint_policy_passes (pn : String) (cfg : Policy)
    (res : List Resource)
    (h : ∀ r ∈ res, r.rtype ∉ cfg.resource_types) :
    checkPolicyCompliance pn cfg res =
      { policy_name := pn, description := cfg.description, status := "PASSED",
        applicable_resources := 0, violations := [], violation_count := 0 } := by
  have hfil : res.filter (fun r => cfg.resource_types.contains r.rtype) = [] := by
    rw [List.filter_eq_nil_iff]
    intro a ha
    simpa using h a ha
  unfold checkPolicyCompliance
  dsimp only
  rw [hfil]
  rfl

/-- C6 witness: a policy over database instances with a required rule
matches no storage bucket and passes vacuously. -/
theorem C6_disjoint_policy_passes_witness :
    checkPolicyCompliance "db"
        ⟨"", ["database_instance"], [⟨some "backup", true⟩]⟩
        [⟨"storage_bucket", "b1", "main.tf", "storage_bucket.b1"⟩] =
      { policy_name := "db", description := "", status := "PASSED",
        applicable_resources := 0, violations := [], violation_count := 0 } :=
  C6_disjoint_policy_passes "db" _ _ (by decide)

/-- C7: when the extractor finds no resources, check_compliance answers with
the explicit error dictionary "No Terraform resources found" rather than an
empty success, and analyze_terraform_files on an existing directory with no
.tf files answers with the explicit "No Terraform files found in ..." error
dictionary. -/
theorem C7_no_resources_is_error :
    (∀ (policies : List (String × Policy)) (dir : String), policies ≠ [] →
       checkCompliance policies [] dir = .error "No Terraform resources found" ∧
       (checkCompliance policies [] dir).status = "error") ∧
    (∀ (dir : String) (v : ValidateResult) (t : TflintResult) (c : CheckovResult),
       analyzeTerraformFiles dir true [] v t c =
         .error ("No Terraform files found in " ++ dir) ∧
       (analyzeTerraformFiles dir true [] v t c).status = "error") := by
  constructor
  · intro policies dir hp
    cases policies with
    | nil => exact absurd rfl hp
    | cons p ps => exact ⟨rfl, rfl⟩
  · intro dir v t c
    exact ⟨rfl, rfl⟩

/-- C7 witness: concrete no-resource and no-file runs produce the two error
dictionaries. -/
theorem C7_no_resources_is_error_witness :
    checkCompliance [("p", ⟨"", [], []⟩)] [] "d" =
      .error "No Terraform resources found" ∧
    analyzeTerraformFiles "d" true [] ⟨"success", true, 0, 0⟩ ⟨"success", 0⟩
        ⟨"success", ⟨0, 0, 0, 0⟩⟩ =
      .error ("No Terraform files found in " ++ "d") :=
  ⟨(C7_no_resources_is_error.1 [("p", ⟨"", [], []⟩)] "d" (by decide)).1,
   (C7_no_resources_is_error.2 "d" ⟨"success", true, 0, 0⟩ ⟨"success", 0⟩
       ⟨"success", ⟨0, 0, 0, 0⟩⟩).1⟩

/-- C4: on the success path every policy contributes exactly one result
whose status is PASSED or FAILED, and the two counts partition the results:
passed_policies + failed_policies = total_policies = number of loaded
policies. -/
theorem C4_pass_fail_partition (policies : List (String × Policy))
    (res : List Resource) (dir : String)
    (hp : policies ≠ []) (hr : res ≠ []) :
    ∃ rpt, checkCompliance policies res dir = .success rpt ∧
      rpt.total_policies = policies.length ∧
      rpt.results.length = policies.length ∧
      rpt.passed_policies + rpt.failed_policies = rpt.total_policies ∧
      ∀ pr ∈ rpt.results, pr.status = "PASSED" ∨ pr.status = "FAILED" := by
  have hdich : ∀ pr ∈ policies.map (fun p => checkPolicyCompliance p.1 p.2 res),
      pr.status = "PASSED" ∨ pr.status = "FAILED" := by
    intro pr hpr
    rw [List.mem_map] at hpr
    obtain ⟨p, _, rfl⟩ := hpr
    exact checkPolicyCompliance_status_dichotomy p.1 p.2 res
  unfold checkCompliance
  rw [if_neg (by simp [List.isEmpty_iff, hp]), if_neg (by simp [List.isEmpty_iff, hr])]
  dsimp only
  refine ⟨_, rfl, rfl, by simp, ?_, hdich⟩
  have h := length_filter_passed_add_failed _ hdich
  simpa using h

/-- C4 witness: a two-policy run (one applicable with a required rule, one
disjoint) splits into one FAILED and one PASSED result summing to two. -/
theorem C4_pass_fail_partition_witness :
    ∃ rpt, checkCompliance
        [("enc", ⟨"", ["storage_bucket"], [⟨some "encryption", true⟩]⟩),
         ("db", ⟨"", ["database_instance"], [⟨some "backup", true⟩]⟩)]
        [⟨"storage_bucket", "b1", "main.tf", "storage_bucket.b1"⟩] "d" =
      .success rpt ∧
      rpt.total_policies =
        [("enc", (⟨"", ["storage_bucket"], [⟨some "encryption", true⟩]⟩ : Policy)),
         ("db", ⟨"", ["database_instance"], [⟨some "backup", true⟩]⟩)].length ∧
      rpt.results.length =
        [("enc", (⟨"", ["storage_bucket"], [⟨some "encryption", true⟩]⟩ : Policy)),
         ("db", ⟨"", ["database_instance"], [⟨some "backup", true⟩]⟩)].length ∧
      rpt.passed_policies + rpt.failed_policies = rpt.total_policies ∧
      ∀ pr ∈ rpt.results, pr.status = "PASSED" ∨ pr.status = "FAILED" :=
  C4_pass_fail_partition _ _ "d" (by decide) (by decide)

/-- C5: every successful report carries a positive policy total and a
compliance score equal to passed_policies divided by total_policies times
100 — an unweighted ratio of policy counts — and the score expression
evaluates to 0 when the policy total is 0. -/
theorem C5_compliance_score_formula :
    (∀ (policies : List (String × Policy)) (res : List Resource) (dir : String)
       (rpt : ComplianceReport),
       checkCompliance policies res dir = .success rpt →
       0 < rpt.total_policies ∧
       rpt.compliance_score =
         (rpt.passed_policies : ℚ) / (rpt.total_policies : ℚ) * 100) ∧
    (∀ passed : ℕ, complianceScore passed 0 = 0) := by
  constructor
  · intro policies res dir rpt h
    unfold checkCompliance at h
    by_cases hp : policies.isEmpty
    · rw [if_pos hp] at h
      exact ComplianceResult.noConfusion h
    · rw [if_neg hp] at h
      by_cases hr : res.isEmpty
      · rw [if_pos hr] at h
        exact ComplianceResult.noConfusion h
      · rw [if_neg hr] at h
        dsimp only at h
        injection h with h
        subst h
        have hne : policies ≠ [] := by simpa [List.isEmpty_iff] using hp
        have hlen : 0 < policies.length := List.length_pos.mpr hne
        refine ⟨hlen, ?_⟩
        dsimp only
        unfold complianceScore
        rw [if_neg (Nat.pos_iff_ne_zero.mp hlen)]
  · intro passed
    rfl

/-- C5 witness: a one-policy run over a non-matching resource passes and
scores 100 = 1/1*100. -/
theorem C5_compliance_score_formula_witness :
    0 < (ComplianceReport.mk "d" 1 1 0 [PolicyResult.mk "p" "" "PASSED" 0 [] 0]
          (complianceScore 1 1) "PASSED").total_policies ∧
    (ComplianceReport.mk "d" 1 1 0 [PolicyResult.mk "p" "" "PASSED" 0 [] 0]
          (complianceScore 1 1) "PASSED").compliance_score =
      ((ComplianceReport.mk "d" 1 1 0 [PolicyResult.mk "p" "" "PASSED" 0 [] 0]
          (complianceScore 1 1) "PASSED").passed_policies : ℚ) /
        ((ComplianceReport.mk "d" 1 1 0 [PolicyResult.mk "p" "" "PASSED" 0 [] 0]
          (complianceScore 1 1) "PASSED").total_policies : ℚ) * 100 :=
  C5_compliance_score_formula.1 [("p", ⟨"", [], []⟩)]
    [⟨"storage_bucket", "b1", "main.tf", "storage_bucket.b1"⟩] "d" _ rfl

end IaC

namespace IaC

/-- C1 counterexample: a policy whose single rule is marked required but
carries no property name, applied to one applicable resource, yields status
PASSED with zero violations — the claim promises FAILED with one violation
per (applicable resource, required rule) pair, so a rule marked required is
not enough on its own. -/
theorem C1_counterexample :
    (({ description := "", resource_types := ["storage_bucket"],
        rules := [{ property := none, required := true }] } : Policy).rules.any
          (fun rule => rule.required)) = true ∧
    (checkPolicyCompliance "encryption"
        { description := "", resource_types := ["storage_bucket"],
          rules := [{ property := none, required := true }] }
        [⟨"storage_bucket", "b1", "main.tf", "storage_bucket.b1"⟩]).applicable_resources
        = 1 ∧
    (checkPolicyCompliance "encryption"
        { description := "", resource_types := ["storage_bucket"],
          rules := [{ property := none, required := true }] }
        [⟨"storage_bucket", "b1", "main.tf", "storage_bucket.b1"⟩]).status = "PASSED" ∧
    (checkPolicyCompliance "encryption"
        { description := "", resource_types := ["storage_bucket"],
          rules := [{ property := none, required := true }] }
        [⟨"storage_bucket", "b1", "main.tf", "storage_bucket.b1"⟩]).violation_count
        = 0 := by
  decide

/-- C1 (amended): for every policy with at least one rule that is marked
required and carries a non-empty property name, and at least one applicable
resource, _check_policy_compliance returns status FAILED, emitting one
MEDIUM-severity violation per (applicable resource, required-with-property
rule) pair regardless of whether the named property is present in the
resource; and in the concrete scenario — policy encryption over
storage_bucket with the single required rule on property encryption, one
storage_bucket resource — the run gives applicable_resources 1,
violation_count 1, status FAILED and compliance_score 0. -/
theorem C1_required_rule_always_fails :
    (∀ (pn : String) (cfg : Policy) (res : List Resource),
       (∃ rule ∈ cfg.rules, rule.alwaysFlags = true) →
       (∃ r ∈ res, cfg.resource_types.contains r.rtype = true) →
       (checkPolicyCompliance pn cfg res).status = "FAILED" ∧
       0 < (checkPolicyCompliance pn cfg res).applicable_resources ∧
       (checkPolicyCompliance pn cfg res).violation_count =
         (checkPolicyCompliance pn cfg res).applicable_resources *
           cfg.rules.countP (fun rule => rule.alwaysFlags) ∧
       ∀ v ∈ (checkPolicyCompliance pn cfg res).violations, v.severity = "MEDIUM") ∧
    (∃ rpt, checkCompliance
        [("encryption", { description := "", resource_types := ["storage_bucket"],
                          rules := [{ property := some "encryption", required := true }] })]
        [⟨"storage_bucket", "b1", "main.tf", "storage_bucket.b1"⟩] "terraform" =
      .success rpt ∧
      rpt.results.map PolicyResult.applicable_resources = [1] ∧
      rpt.results.map PolicyResult.violation_count = [1] ∧
      rpt.results.map PolicyResult.status = ["FAILED"] ∧
      rpt.compliance_score = 0) := by
  constructor
  · intro pn cfg res hrule hres
    obtain ⟨rule, hrmem, hrflag⟩ := hrule
    obtain ⟨r, hrmem2, hrtype⟩ := hres
    have hk : 0 < cfg.rules.countP (fun rule => rule.alwaysFlags) :=
      List.countP_pos_iff.mpr ⟨rule, hrmem, hrflag⟩
    have hrel : r ∈ res.filter (fun r => cfg.resource_types.contains r.rtype) :=
      List.mem_filter.mpr ⟨hrmem2, hrtype⟩
    have happ : 0 < (res.filter (fun r => cfg.resource_types.contains r.rtype)).length :=
      List.length_pos.mpr (List.ne_nil_of_mem hrel)
    have hcount := checkPolicyCompliance_count pn cfg res
    refine ⟨?_, ?_, ?_, checkPolicyCompliance_severity_medium pn cfg res⟩
    · rcases checkPolicyCompliance_status_dichotomy pn cfg res with hst | hst
      · exfalso
        have hv := (checkPolicyCompliance_status_passed_iff pn cfg res).mp hst
        have h0 : (checkPolicyCompliance pn cfg res).violation_count = 0 := by
          rw [checkPolicyCompliance_count_eq_length, hv]
          rfl
        rw [hcount] at h0
        exact absurd h0 (Nat.pos_iff_ne_zero.mp (Nat.mul_pos happ hk))
      · exact hst
    · rw [checkPolicyCompliance_applicable]
      exact happ
    · rw [hcount, checkPolicyCompliance_applicable]
  · refine ⟨_, rfl, ?_, ?_, ?_, ?_⟩
    · rfl
    · rfl
    · rfl
    · norm_num [complianceScore]
      decide

/-- C1 witness: the amended statement applied to the concrete encryption
scenario, whose one applicable resource and one required-with-property rule
give exactly one MEDIUM violation and status FAILED. -/
theorem C1_required_rule_always_fails_witness :
    (checkPolicyCompliance "encryption"
        { description := "", resource_types := ["storage_bucket"],
          rules := [{ property := some "encryption", required := true }] }
        [⟨"storage_bucket", "b1", "main.tf", "storage_bucket.b1"⟩]).status = "FAILED" ∧
    0 < (checkPolicyCompliance "encryption"
        { description := "", resource_types := ["storage_bucket"],
          rules := [{ property := some "encryption", required := true }] }
        [⟨"storage_bucket", "b1", "main.tf", "storage_bucket.b1"⟩]).applicable_resources ∧
    (checkPolicyCompliance "encryption"
        { description := "", resource_types := ["storage_bucket"],
          rules := [{ property := some "encryption", required := true }] }
        [⟨"storage_bucket", "b1", "main.tf", "storage_bucket.b1"⟩]).violation_count =
      (checkPolicyCompliance "encryption"
        { description := "", resource_types := ["storage_bucket"],
          rules := [{ property := some "encryption", required := true }] }
        [⟨"storage_bucket", "b1", "main.tf", "storage_bucket.b1"⟩]).applicable_resources *
        ({ description := "", resource_types := ["storage_bucket"],
           rules := [{ property := some "encryption", required := true }] } : Policy).rules.countP
          (fun rule => rule.alwaysFlags) ∧
    ∀ v ∈ (checkPolicyCompliance "encryption"
        { description := "", resource_types := ["storage_bucket"],
          rules := [{ property := some "encryption", required := true }] }
        [⟨"storage_bucket", "b1", "main.tf", "storage_bucket.b1"⟩]).violations,
      v.severity = "MEDIUM" :=
  C1_required_rule_always_fails.1 "encryption"
    { description := "", resource_types := ["storage_bucket"],
      rules := [{ property := some "encryption", required := true }] }
    [⟨"storage_bucket", "b1", "main.tf", "storage_bucket.b1"⟩]
    (by decide) (by decide)

end IaC
